import Mathlib

/-!
Verification of the `azkeyvault-perm-tester` CLI (src/main.go).

The program is sequential orchestration: parse flags, validate required
flags, build a credential and a client, then run up to three permission
probes (Sign, Verify, GetKey) against a remote key-vault service and
print the outcome of each.

Shallow embedding strategy:
- Command-line booleans are modelled by `FlagArg` (was the flag explicitly
  present in the argument list, and with which value), matching what Go's
  `flag` package exposes through `flag.Visit` (visits only flags that were
  set on the command line).
- The remote service, the credential chain and the SHA-256 digest are
  external collaborators: their responses are inputs (`RemoteOutcomes`,
  `cred`, `client`, `digest`), and the run is a pure function of them.
- All observable behaviour (printed lines and issued remote calls) is
  recorded as an event trace (`Event`); each constructor corresponds to
  one `fmt.Printf`/`fmt.Println` line or one client call in main.go.
- Byte slices are `List Nat`; a nil Go slice is `Option.none`.
-/

/-- One boolean command-line flag as seen after `flag.Parse`:
whether it was explicitly supplied on the command line (`present`,
what `flag.Visit` reports) and the value supplied with it. -/
structure FlagArg where
  present : Bool
  value : Bool
deriving Repr, DecidableEq

/-- The three probe-gating booleans `*testSign`, `*testVerify`, `*testGet`. -/
structure TestFlags where
  testSign : Bool
  testVerify : Bool
  testGet : Bool
deriving Repr, DecidableEq

/-- Value of a boolean flag after `flag.Parse`: the supplied value when the
flag was present on the command line, its default otherwise. -/
def parsedBool (dflt : Bool) (a : FlagArg) : Bool :=
  if a.present then a.value else dflt

/-- main.go lines 20-49: the three test flags default to `true`; when
`skip-all` is set, all three are first assigned `false`, then `flag.Visit`
re-assigns `true` to every test flag that was explicitly present on the
command line, regardless of the value it was supplied with. -/
def resolveTestFlags (skipAll : Bool) (signArg verifyArg getArg : FlagArg) :
    TestFlags :=
  let testSign := parsedBool true signArg
  let testVerify := parsedBool true verifyArg
  let testGet := parsedBool true getArg
  if skipAll then
    let testSign := false
    let testVerify := false
    let testGet := false
    let testSign := if signArg.present then true else testSign
    let testVerify := if verifyArg.present then true else testVerify
    let testGet := if getArg.present then true else testGet
    ⟨testSign, testVerify, testGet⟩
  else
    ⟨testSign, testVerify, testGet⟩

/-- `type keyInfo struct` of main.go (zero value: empty type, not
HSM-protected). -/
structure keyInfo where
  keyType : String
  hsmProtected : Bool
deriving Repr, DecidableEq

/-- The `Key` field of a `GetKey` response: `KID` and `Kty` are pointers in
the Go SDK, hence `Option`. -/
structure ResponseKey where
  KID : Option String
  Kty : Option String
deriving Repr, DecidableEq

/-- A `GetKey` response. -/
structure GetKeyResponse where
  key : ResponseKey
deriving Repr, DecidableEq

instance {ε α : Type} [DecidableEq ε] [DecidableEq α] :
    DecidableEq (Except ε α) := fun x y =>
  match x, y with
  | .error a, .error b =>
    if h : a = b then isTrue (congrArg Except.error h)
    else isFalse (fun hh => h (by injection hh))
  | .error _, .ok _ => isFalse (fun hh => Except.noConfusion hh)
  | .ok _, .error _ => isFalse (fun hh => Except.noConfusion hh)
  | .ok a, .ok b =>
    if h : a = b then isTrue (congrArg Except.ok h)
    else isFalse (fun hh => h (by injection hh))

/-- The outcome of each of the three remote operations for this run, as the
remote service would answer them: `sign` yields signature bytes,
`verify` yields the optional verification boolean (`resp.Value`, a
pointer in the SDK), `get` yields the key bundle. -/
structure RemoteOutcomes where
  sign : Except String (List Nat)
  verify : Except String (Option Bool)
  get : Except String GetKeyResponse
deriving Repr, DecidableEq

/-- `doTestSign` (main.go lines 134-146): wrap a remote error as
`sign operation failed: ...`, otherwise return `resp.Result`. -/
def doTestSign (resp : Except String (List Nat)) : Except String (List Nat) :=
  match resp with
  | .error e => .error ("sign operation failed: " ++ e)
  | .ok r => .ok r

/-- `doTestVerify` (main.go lines 148-165): wrap a remote error as
`verify operation failed: ...`; on a permitted call, succeed iff
`resp.Value != nil && *resp.Value`, otherwise fail with the distinct
message `signature verification failed`. -/
def doTestVerify (resp : Except String (Option Bool)) : Except String Unit :=
  match resp with
  | .error e => .error ("verify operation failed: " ++ e)
  | .ok v =>
    if v = some true then .ok ()
    else .error "signature verification failed"

/-- The observable steps of a run: each printed line of main.go and each
remote client call, in program order. -/
inductive Event where
  /-- `%d. Testing <PROBE> permission...` header line. -/
  | headerSign (n : Nat)
  | headerVerify (n : Nat)
  | headerGet (n : Nat)
  /-- `client.Sign(ctx, keyName, "", signParams, nil)` remote call. -/
  | remoteSign (key alg : String) (digest : List Nat)
  /-- `SIGN successful` plus the base64 signature line. -/
  | signOK (sig : List Nat)
  /-- `SIGN failed: %v` line. -/
  | signFailed (msg : String)
  /-- The informational line `No signature available from sign test, using
  dummy signature for verify test` (main.go line 97). -/
  | noSignatureNote
  /-- `client.Verify(ctx, keyName, "", verifyParams, nil)` remote call. -/
  | remoteVerify (key alg : String) (digest sig : List Nat)
  /-- `VERIFY successful` line. -/
  | verifyOK
  /-- `VERIFY failed: %v` line. -/
  | verifyFailed (msg : String)
  /-- `client.GetKey(ctx, keyName, "", nil)` remote call. -/
  | remoteGet (key : String)
  /-- `Key ID: %s` line printed inside `doTestGetKey`. -/
  | keyIDLine (kid : String)
  /-- `GET successful` plus the `Key Type`/`HSM Protected` lines. -/
  | getOK (info : keyInfo)
  /-- `GET failed: %v` line. -/
  | getFailed (msg : String)
  /-- The empty `fmt.Println()` at the end of each probe block. -/
  | blank
  /-- `No tests selected. ...` line. -/
  | noTestsLine
  /-- `Permission test completed.` line. -/
  | completedLine
deriving Repr, DecidableEq

/-- `doTestGetKey` (main.go lines 172-193): wrap a remote error as
`get key operation failed: ...`; on success, print the `Key ID` line when
`resp.Key.KID != nil`, and fill `keyInfo` from `resp.Key.Kty` when present
(zero value otherwise), with `hsmProtected` set iff the key type string
equals `RSA-HSM` or `EC-HSM`. Returns the printed events and the result. -/
def doTestGetKey (resp : Except String GetKeyResponse) :
    List Event × Except String keyInfo :=
  match resp with
  | .error e => ([], .error ("get key operation failed: " ++ e))
  | .ok r =>
    let kidEvents : List Event :=
      match r.key.KID with
      | some kid => [Event.keyIDLine kid]
      | none => []
    let info : keyInfo :=
      match r.key.Kty with
      | some kty => ⟨kty, kty == "RSA-HSM" || kty == "EC-HSM"⟩
      | none => ⟨"", false⟩
    (kidEvents, .ok info)

/-- `make([]byte, 256)` of main.go line 98: the dummy signature substituted
for a standalone verify test, 256 zero bytes (RSA-2048 signature size),
independent of the configured algorithm. -/
def dummySignature : List Nat := List.replicate 256 0

/-- The SIGN probe block (main.go lines 77-89): when enabled, print the
header, issue the remote sign call, and report success (with the
signature) or failure; the produced signature (or `none` on failure) is
carried forward, and the test counter advances. -/
def signBlock (enabled : Bool) (testNum : Nat) (key alg : String)
    (digest : List Nat) (signOut : Except String (List Nat)) :
    List Event × Option (List Nat) × Nat :=
  if enabled then
    match doTestSign signOut with
    | .error e =>
      ([Event.headerSign testNum, Event.remoteSign key alg digest,
        Event.signFailed e, Event.blank], none, testNum + 1)
    | .ok sig =>
      ([Event.headerSign testNum, Event.remoteSign key alg digest,
        Event.signOK sig, Event.blank], some sig, testNum + 1)
  else ([], none, testNum)

/-- The VERIFY probe block (main.go lines 91-110): when enabled, print the
header; if no signature is at hand and the sign test was not enabled,
print the informational note and substitute `dummySignature`; then, if a
signature is at hand, issue the remote verify call and report its outcome.
When the sign test was enabled but produced no signature, no call is made
and nothing besides the header and the blank line is printed. -/
def verifyBlock (enabledVerify enabledSign : Bool) (testNum : Nat)
    (key alg : String) (digest : List Nat) (signature : Option (List Nat))
    (verifyOut : Except String (Option Bool)) : List Event × Nat :=
  if enabledVerify then
    let noteAndSig : List Event × Option (List Nat) :=
      if signature.isNone && !enabledSign then
        ([Event.noSignatureNote], some dummySignature)
      else ([], signature)
    let callEvents : List Event :=
      match noteAndSig.2 with
      | some sig =>
        Event.remoteVerify key alg digest sig ::
        (match doTestVerify verifyOut with
         | .error e => [Event.verifyFailed e]
         | .ok _ => [Event.verifyOK])
      | none => []
    (Event.headerVerify testNum :: (noteAndSig.1 ++ callEvents ++ [Event.blank]),
     testNum + 1)
  else ([], testNum)

/-- The GET probe block (main.go lines 112-125): when enabled, print the
header, issue the remote get-key call (the `Key ID` line is printed inside
`doTestGetKey` before it returns), and report success (with key type and
HSM flag) or failure. -/
def getBlock (enabled : Bool) (testNum : Nat) (key : String)
    (getOut : Except String GetKeyResponse) : List Event :=
  if enabled then
    let r := doTestGetKey getOut
    match r.2 with
    | .error e =>
      Event.headerGet testNum :: Event.remoteGet key ::
        (r.1 ++ [Event.getFailed e, Event.blank])
    | .ok info =>
      Event.headerGet testNum :: Event.remoteGet key ::
        (r.1 ++ [Event.getOK info, Event.blank])
  else []

/-- The probe-running part of `main` (lines 71-131): run the three blocks in
the fixed order Sign, Verify, Get, threading the signature and the test
counter; print the no-tests line when all three flags resolved false, and
always end with the completion line. Probe failures alter no control flow. -/
def runProbes (flags : TestFlags) (key alg : String) (digest : List Nat)
    (out : RemoteOutcomes) : List Event :=
  let s := signBlock flags.testSign 1 key alg digest out.sign
  let v := verifyBlock flags.testVerify flags.testSign s.2.2 key alg digest
    s.2.1 out.verify
  let g := getBlock flags.testGet v.2 key out.get
  let noTests : List Event :=
    if !flags.testSign && !flags.testVerify && !flags.testGet then
      [Event.noTestsLine]
    else []
  s.1 ++ v.1 ++ g ++ noTests ++ [Event.completedLine]

/-- How a run of `main` ends: `os.Exit(1)` after `flag.Usage()` for a
missing required flag; `log.Fatalf` (exit status 1) when the credential
chain or the client construction fails; otherwise normal completion with
the produced event trace (exit status 0). -/
inductive MainResult where
  | usageExit (code : Nat)
  | fatalExit (msg : String)
  | completed (events : List Event)
deriving Repr, DecidableEq

/-- Process exit status of a `MainResult`. -/
def MainResult.exitCode : MainResult → Nat
  | .usageExit c => c
  | .fatalExit _ => 1
  | .completed _ => 0

/-- `main` (main.go lines 16-132) as a function of the parsed command line,
the credential-chain and client-construction outcomes, the SHA-256 digest
of the fixed test message, and the remote outcomes: validate the required
flags first (usage + exit 1 when either is empty, before any credential or
client work), resolve skip-all, obtain credentials, build the client, then
run the probes and exit 0. -/
def mainRun (vaultURL keyName : String)
    (signArg verifyArg getArg : FlagArg) (skipAll : Bool)
    (algorithm : String) (cred client : Except String Unit)
    (digest : List Nat) (out : RemoteOutcomes) : MainResult :=
  if vaultURL = "" || keyName = "" then
    .usageExit 1
  else
    let flags := resolveTestFlags skipAll signArg verifyArg getArg
    match cred with
    | .error e => .fatalExit ("Failed to obtain credentials: " ++ e)
    | .ok _ =>
      match client with
      | .error e => .fatalExit ("Failed to create Key Vault client: " ++ e)
      | .ok _ => .completed (runProbes flags keyName algorithm digest out)

/-- The spec's resolution rule as claim C1 words it for skip-all runs: a
test flag explicitly supplied on the command line keeps the value it was
supplied with, and a flag not supplied resolves to false. Stated from the
spec's words, to be compared with `resolveTestFlags`. -/
def specResolvedUnderSkipAll (a : FlagArg) : Bool :=
  if a.present then a.value else false

/-- The ten supported signature algorithms (main.go line 24). -/
inductive SignatureAlgorithm where
  | RS256 | RS384 | RS512 | PS256 | PS384 | PS512
  | ES256 | ES256K | ES384 | ES512
deriving Repr, DecidableEq

/-- Modelled from the spec: the expected signature output size in bytes for
each supported algorithm — 256 bytes for the RSA-2048-class algorithms (the
spec's own example), and the standard raw ECDSA sizes for the EC curves
(two coordinates each: P-256 and secp256k1 give 64, P-384 gives 96,
P-521 gives 132). Stated from the spec's words, to be compared with the
size of `dummySignature`. -/
def specExpectedSignatureSize : SignatureAlgorithm → Nat
  | .RS256 => 256
  | .RS384 => 256
  | .RS512 => 256
  | .PS256 => 256
  | .PS384 => 256
  | .PS512 => 256
  | .ES256 => 64
  | .ES256K => 64
  | .ES384 => 96
  | .ES512 => 132

/-- Flag string of a supported algorithm. -/
def SignatureAlgorithm.name : SignatureAlgorithm → String
  | .RS256 => "RS256"
  | .RS384 => "RS384"
  | .RS512 => "RS512"
  | .PS256 => "PS256"
  | .PS384 => "PS384"
  | .PS512 => "PS512"
  | .ES256 => "ES256"
  | .ES256K => "ES256K"
  | .ES384 => "ES384"
  | .ES512 => "ES512"

/-! ## Flag resolution (claims C1, C2) -/

lemma resolveTestFlags_true_eq (signArg verifyArg getArg : FlagArg) :
    resolveTestFlags true signArg verifyArg getArg =
      ⟨signArg.present, verifyArg.present, getArg.present⟩ := by
  rcases signArg with ⟨p1, v1⟩
  rcases verifyArg with ⟨p2, v2⟩
  rcases getArg with ⟨p3, v3⟩
  cases p1 <;> cases p2 <;> cases p3 <;> rfl

/-- C1 counterexample: with skip-all set and `test-sign=false` explicitly
supplied, the claim resolves test-sign to the supplied value `false`, but
the code enables the sign probe. -/
theorem C1_counterexample :
    ¬ ((resolveTestFlags true ⟨true, false⟩ ⟨false, true⟩
          ⟨false, true⟩).testSign = specResolvedUnderSkipAll ⟨true, false⟩) := by
  decide

/-- C1 (amended): for every invocation with skip-all=true, the resulting
enabled-probe set equals exactly the set of test-* flags explicitly
supplied on the command line — every explicitly supplied flag resolves to
true regardless of the value supplied with it, and every test-* flag not
explicitly supplied resolves to false. -/
theorem C1_skip_all_enabled_set (signArg verifyArg getArg : FlagArg) :
    resolveTestFlags true signArg verifyArg getArg =
      ⟨signArg.present, verifyArg.present, getArg.present⟩ :=
  resolveTestFlags_true_eq signArg verifyArg getArg

/-- C2: when skip-all is true the resolver baselines all three test-*
booleans to false and then re-enables exactly the explicitly present
flags: the result is invariant under the values supplied with the flags,
and each probe ends up enabled iff its flag was explicitly present. -/
theorem C2_skip_all_explicit_mention_wins (signArg verifyArg getArg : FlagArg)
    (b1 b2 b3 : Bool) :
    resolveTestFlags true ⟨signArg.present, b1⟩ ⟨verifyArg.present, b2⟩
        ⟨getArg.present, b3⟩ = resolveTestFlags true signArg verifyArg getArg ∧
    ((resolveTestFlags true signArg verifyArg getArg).testSign = true ↔
      signArg.present = true) ∧
    ((resolveTestFlags true signArg verifyArg getArg).testVerify = true ↔
      verifyArg.present = true) ∧
    ((resolveTestFlags true signArg verifyArg getArg).testGet = true ↔
      getArg.present = true) := by
  simp [resolveTestFlags_true_eq]

/-! ## HSM detection (claim C3) -/

/-- C3 counterexample: the key type label `oct-HSM` carries the `-HSM`
suffix, yet the Get probe derives `hsmProtected = false` for it, because
the code compares the whole label against `RSA-HSM` and `EC-HSM` only. -/
theorem C3_counterexample :
    ("-HSM".data).isSuffixOf "oct-HSM".data = true ∧
    (doTestGetKey (.ok ⟨⟨none, some "oct-HSM"⟩⟩)).2 =
      .ok ⟨"oct-HSM", false⟩ := by
  refine ⟨by decide, rfl⟩

/-- C3 (amended): the derived boolean `hsmProtected` is true iff the key
type label is exactly `RSA-HSM` or `EC-HSM`; in particular it is true for
those two labels, false for `RSA` and `EC`, and false for every other
label even when it ends in `-HSM`. -/
theorem C3_hsm_flag_exact_labels (kty : String) (kid : Option String) :
    ((doTestGetKey (.ok ⟨⟨kid, some kty⟩⟩)).2 = .ok ⟨kty, true⟩ ↔
      (kty = "RSA-HSM" ∨ kty = "EC-HSM")) ∧
    (doTestGetKey (.ok ⟨⟨kid, some "RSA-HSM"⟩⟩)).2 = .ok ⟨"RSA-HSM", true⟩ ∧
    (doTestGetKey (.ok ⟨⟨kid, some "EC-HSM"⟩⟩)).2 = .ok ⟨"EC-HSM", true⟩ ∧
    (doTestGetKey (.ok ⟨⟨kid, some "RSA"⟩⟩)).2 = .ok ⟨"RSA", false⟩ ∧
    (doTestGetKey (.ok ⟨⟨kid, some "EC"⟩⟩)).2 = .ok ⟨"EC", false⟩ := by
  refine ⟨?_, rfl, rfl, rfl, rfl⟩
  simp [doTestGetKey]

/-! ## Verify outcome classification (claims C6, C9) -/

/-- C6: the Verify probe succeeds iff the remote call returns without error
and with the boolean `some true`; a permitted call returning a negative
boolean yields the distinct message `signature verification failed`, while
a remote error is wrapped as `verify operation failed: ...`. -/
theorem C6_verify_success_iff_affirmative (r : Except String (Option Bool)) :
    (doTestVerify r = .ok () ↔ r = .ok (some true)) ∧
    (∀ b : Bool, doTestVerify (.ok (some b)) =
      if b then .ok () else .error "signature verification failed") ∧
    (∀ e : String, doTestVerify (.error e) =
      .error ("verify operation failed: " ++ e)) := by
  refine ⟨?_, ?_, ?_⟩
  · cases r with
    | error e => simp [doTestVerify]
    | ok v =>
      cases v with
      | none => simp [doTestVerify]
      | some b => cases b <;> simp [doTestVerify]
  · intro b; cases b <;> rfl
  · intro e; rfl

/-- C9: a remote Verify call that succeeds but carries no verification
boolean (`resp.Value == nil`) is reported as the semantic failure
`signature verification failed`, exactly as a negative boolean is. -/
theorem C9_verify_nil_result_semantic_failure :
    doTestVerify (.ok none) = .error "signature verification failed" ∧
    doTestVerify (.ok (some false)) =
      .error "signature verification failed" := by
  exact ⟨rfl, rfl⟩

/-! ## Get probe with missing response fields (claim C10) -/

/-- C10: a successful GetKey response with no key type still yields a Get
success with the empty key type and `hsmProtected = false`; a missing key
identifier merely suppresses the `Key ID` line without causing a failure. -/
theorem C10_get_missing_fields_tolerated (kid : Option String)
    (kty : Option String) :
    (doTestGetKey (.ok ⟨⟨kid, none⟩⟩)).2 = .ok ⟨"", false⟩ ∧
    (doTestGetKey (.ok ⟨⟨none, kty⟩⟩)).1 = [] ∧
    (∃ info : keyInfo, (doTestGetKey (.ok ⟨⟨none, kty⟩⟩)).2 = .ok info) := by
  refine ⟨rfl, rfl, ?_⟩
  cases kty <;> exact ⟨_, rfl⟩

/-! ## Helper lemmas about the probe blocks -/

lemma signBlock_mem (n : Nat) (key alg : String) (digest : List Nat)
    (so : Except String (List Nat)) :
    Event.headerSign n ∈ (signBlock true n key alg digest so).1 ∧
    Event.remoteSign key alg digest ∈ (signBlock true n key alg digest so).1 := by
  cases so <;> simp [signBlock, doTestSign]

lemma verifyBlock_mem (es : Bool) (n : Nat) (key alg : String)
    (digest : List Nat) (sig : Option (List Nat))
    (vo : Except String (Option Bool)) :
    Event.headerVerify n ∈ (verifyBlock true es n key alg digest sig vo).1 := by
  simp [verifyBlock]

lemma getBlock_mem (n : Nat) (key : String)
    (go : Except String GetKeyResponse) :
    Event.headerGet n ∈ getBlock true n key go ∧
    Event.remoteGet key ∈ getBlock true n key go := by
  cases go <;> simp [getBlock, doTestGetKey]

lemma remoteVerify_not_mem_getBlock (en : Bool) (n : Nat) (key : String)
    (go : Except String GetKeyResponse) (k a : String) (d s : List Nat) :
    Event.remoteVerify k a d s ∉ getBlock en n key go := by
  cases en
  · simp [getBlock]
  · cases go with
    | error e => simp [getBlock, doTestGetKey]
    | ok r =>
      rcases r with ⟨⟨kid, kty⟩⟩
      cases kid <;> cases kty <;> simp [getBlock, doTestGetKey]

lemma noSignatureNote_not_mem_getBlock (en : Bool) (n : Nat) (key : String)
    (go : Except String GetKeyResponse) :
    Event.noSignatureNote ∉ getBlock en n key go := by
  cases en
  · simp [getBlock]
  · cases go with
    | error e => simp [getBlock, doTestGetKey]
    | ok r =>
      rcases r with ⟨⟨kid, kty⟩⟩
      cases kid <;> cases kty <;> simp [getBlock, doTestGetKey]

/-! ## Dummy signature for a standalone verify test (claim C4) -/

set_option maxRecDepth 8000 in
/-- C4 counterexample: with algorithm ES256, Verify enabled and Sign not
run, the substituted placeholder passed to the remote Verify call is the
fixed 256-zero-byte array, whose size does not match the expected ES256
signature output size of 64 bytes. -/
theorem C4_counterexample :
    SignatureAlgorithm.ES256.name = "ES256" ∧
    Event.remoteVerify "k1" "ES256" [0] dummySignature ∈
      runProbes ⟨false, true, false⟩ "k1" "ES256" [0]
        ⟨.error "e", .ok (some false), .error "e"⟩ ∧
    ¬ (dummySignature.length =
        specExpectedSignatureSize SignatureAlgorithm.ES256) := by
  refine ⟨rfl, ?_, by decide⟩
  simp [runProbes, signBlock, verifyBlock]

/-- C4 (amended): when Verify is enabled but Sign was not run at all, the
informational note is printed and the substituted placeholder signature is
always the all-zero 256-byte array (the RSA-2048 signature size),
independent of the configured algorithm. -/
theorem C4_dummy_signature_fixed_size (key alg : String) (digest : List Nat)
    (out : RemoteOutcomes) (tg : Bool) :
    Event.noSignatureNote ∈ runProbes ⟨false, true, tg⟩ key alg digest out ∧
    Event.remoteVerify key alg digest dummySignature ∈
      runProbes ⟨false, true, tg⟩ key alg digest out ∧
    dummySignature = List.replicate 256 0 := by
  refine ⟨?_, ?_, rfl⟩ <;>
    simp [runProbes, signBlock, verifyBlock]

/-! ## Verify skipped after a failed sign (claim C5) -/

/-- C5 counterexample: with all probes enabled and a Sign probe that ran
and failed, the run's complete event trace contains no remote Verify call
but also no informational note about the skip — the verify block prints
only its header and a blank line. -/
theorem C5_counterexample :
    runProbes ⟨true, true, true⟩ "k1" "RS256" [0]
        ⟨.error "denied", .ok (some true), .ok ⟨⟨none, none⟩⟩⟩ =
      [Event.headerSign 1, Event.remoteSign "k1" "RS256" [0],
       Event.signFailed "sign operation failed: denied", Event.blank,
       Event.headerVerify 2, Event.blank,
       Event.headerGet 3, Event.remoteGet "k1", Event.getOK ⟨"", false⟩,
       Event.blank, Event.completedLine] ∧
    Event.noSignatureNote ∉
      runProbes ⟨true, true, true⟩ "k1" "RS256" [0]
        ⟨.error "denied", .ok (some true), .ok ⟨⟨none, none⟩⟩⟩ := by
  refine ⟨by decide, by decide⟩

/-- C5 (amended): whenever the Sign probe ran but failed and Verify is
independently enabled, the Verify probe issues no remote Verify call, but
no informational note is emitted either — the verify block runs and prints
only its header (and trailing blank line). -/
theorem C5_sign_failed_verify_skipped_silently (e key alg : String)
    (digest : List Nat) (vOut : Except String (Option Bool))
    (gOut : Except String GetKeyResponse) (tg : Bool) :
    (∀ (k a : String) (d s : List Nat), Event.remoteVerify k a d s ∉
        runProbes ⟨true, true, tg⟩ key alg digest ⟨.error e, vOut, gOut⟩) ∧
    Event.noSignatureNote ∉
      runProbes ⟨true, true, tg⟩ key alg digest ⟨.error e, vOut, gOut⟩ ∧
    Event.headerVerify 2 ∈
      runProbes ⟨true, true, tg⟩ key alg digest ⟨.error e, vOut, gOut⟩ := by
  refine ⟨fun k a d s => ?_, ?_, ?_⟩ <;>
    simp [runProbes, signBlock, verifyBlock, doTestSign,
      remoteVerify_not_mem_getBlock, noSignatureNote_not_mem_getBlock]

/-! ## Probe independence and exit status (claim C7) -/

lemma runProbes_remoteSign_mem (flags : TestFlags) (key alg : String)
    (digest : List Nat) (out : RemoteOutcomes) (h : flags.testSign = true) :
    Event.remoteSign key alg digest ∈ runProbes flags key alg digest out := by
  simp only [runProbes, h]
  apply List.mem_append_left
  apply List.mem_append_left
  apply List.mem_append_left
  apply List.mem_append_left
  exact (signBlock_mem _ _ _ _ _).2

lemma runProbes_headerVerify_mem (flags : TestFlags) (key alg : String)
    (digest : List Nat) (out : RemoteOutcomes) (h : flags.testVerify = true) :
    ∃ n, Event.headerVerify n ∈ runProbes flags key alg digest out := by
  simp only [runProbes, h]
  refine ⟨(signBlock flags.testSign 1 key alg digest out.sign).2.2, ?_⟩
  apply List.mem_append_left
  apply List.mem_append_left
  apply List.mem_append_left
  apply List.mem_append_right
  exact verifyBlock_mem _ _ _ _ _ _ _

lemma runProbes_remoteGet_mem (flags : TestFlags) (key alg : String)
    (digest : List Nat) (out : RemoteOutcomes) (h : flags.testGet = true) :
    Event.remoteGet key ∈ runProbes flags key alg digest out := by
  simp only [runProbes, h]
  apply List.mem_append_left
  apply List.mem_append_left
  apply List.mem_append_right
  exact (getBlock_mem _ _ _).2

lemma runProbes_completedLine_mem (flags : TestFlags) (key alg : String)
    (digest : List Nat) (out : RemoteOutcomes) :
    Event.completedLine ∈ runProbes flags key alg digest out := by
  simp only [runProbes]
  apply List.mem_append_right
  simp

/-- C7: once the run reaches the probes (required flags present, credential
and client obtained), it always completes with exit status 0, whatever the
three remote outcomes are; every enabled probe runs — in particular the
Sign and Get remote calls are issued and the Verify block is entered
regardless of how the other probes fared. -/
theorem C7_probe_independence_exit_zero (vaultURL keyName : String)
    (signArg verifyArg getArg : FlagArg) (skipAll : Bool) (algorithm : String)
    (digest : List Nat) (out : RemoteOutcomes)
    (hu : vaultURL ≠ "") (hk : keyName ≠ "") :
    ∃ events : List Event,
      mainRun vaultURL keyName signArg verifyArg getArg skipAll algorithm
          (.ok ()) (.ok ()) digest out = .completed events ∧
      MainResult.exitCode (mainRun vaultURL keyName signArg verifyArg getArg
          skipAll algorithm (.ok ()) (.ok ()) digest out) = 0 ∧
      ((resolveTestFlags skipAll signArg verifyArg getArg).testSign = true →
        Event.remoteSign keyName algorithm digest ∈ events) ∧
      ((resolveTestFlags skipAll signArg verifyArg getArg).testVerify = true →
        ∃ n, Event.headerVerify n ∈ events) ∧
      ((resolveTestFlags skipAll signArg verifyArg getArg).testGet = true →
        Event.remoteGet keyName ∈ events) ∧
      Event.completedLine ∈ events := by
  refine ⟨runProbes (resolveTestFlags skipAll signArg verifyArg getArg)
      keyName algorithm digest out, ?_, ?_, ?_, ?_, ?_, ?_⟩
  · simp [mainRun, hu, hk]
  · simp [mainRun, hu, hk, MainResult.exitCode]
  · exact fun h => runProbes_remoteSign_mem _ _ _ _ _ h
  · exact fun h => runProbes_headerVerify_mem _ _ _ _ _ h
  · exact fun h => runProbes_remoteGet_mem _ _ _ _ _ h
  · exact runProbes_completedLine_mem _ _ _ _ _

/-- C7 witness: a concrete run with every remote operation denied still
completes with exit status 0, issues the Sign and Get calls, and enters
the Verify block. -/
theorem C7_probe_independence_exit_zero_witness :
    ("https://v.vault.azure.net/" ≠ "" ∧ "k1" ≠ "") ∧
    (∃ events : List Event,
      mainRun "https://v.vault.azure.net/" "k1" ⟨false, true⟩ ⟨false, true⟩
          ⟨false, true⟩ false "RS256" (.ok ()) (.ok ()) [0]
          ⟨.error "denied", .error "denied", .error "denied"⟩ =
        .completed events ∧
      MainResult.exitCode (mainRun "https://v.vault.azure.net/" "k1"
          ⟨false, true⟩ ⟨false, true⟩ ⟨false, true⟩ false "RS256" (.ok ())
          (.ok ()) [0] ⟨.error "denied", .error "denied", .error "denied"⟩) =
        0 ∧
      ((resolveTestFlags false ⟨false, true⟩ ⟨false, true⟩
          ⟨false, true⟩).testSign = true →
        Event.remoteSign "k1" "RS256" [0] ∈ events) ∧
      ((resolveTestFlags false ⟨false, true⟩ ⟨false, true⟩
          ⟨false, true⟩).testVerify = true →
        ∃ n, Event.headerVerify n ∈ events) ∧
      ((resolveTestFlags false ⟨false, true⟩ ⟨false, true⟩
          ⟨false, true⟩).testGet = true →
        Event.remoteGet "k1" ∈ events) ∧
      Event.completedLine ∈ events) :=
  ⟨⟨by decide, by decide⟩,
    C7_probe_independence_exit_zero "https://v.vault.azure.net/" "k1"
      ⟨false, true⟩ ⟨false, true⟩ ⟨false, true⟩ false "RS256" [0]
      ⟨.error "denied", .error "denied", .error "denied"⟩
      (by decide) (by decide)⟩

/-! ## Required-flag validation (claim C8) -/

/-- C8: any invocation with an empty vault-url or key-name ends as
`usageExit 1` — usage text plus `os.Exit(1)` — with non-zero exit status,
whatever the credential, client and remote outcomes would have been, so no
credential acquisition, client construction or remote call takes place. -/
theorem C8_missing_required_flag_usage_exit (vaultURL keyName : String)
    (signArg verifyArg getArg : FlagArg) (skipAll : Bool) (algorithm : String)
    (cred client : Except String Unit) (digest : List Nat)
    (out : RemoteOutcomes) (h : vaultURL = "" ∨ keyName = "") :
    mainRun vaultURL keyName signArg verifyArg getArg skipAll algorithm cred
        client digest out = .usageExit 1 ∧
    MainResult.exitCode (mainRun vaultURL keyName signArg verifyArg getArg
        skipAll algorithm cred client digest out) ≠ 0 := by
  rcases h with h | h <;> subst h <;> simp [mainRun, MainResult.exitCode]

/-- C8 witness: a concrete invocation with an empty vault-url exits with
usage and status 1 even though the credential chain and the remote service
would have answered. -/
theorem C8_missing_required_flag_usage_exit_witness :
    ("" = "" ∨ "k1" = "") ∧
    (mainRun "" "k1" ⟨false, true⟩ ⟨false, true⟩ ⟨false, true⟩ false "RS256"
        (.ok ()) (.ok ()) [0]
        ⟨.ok [1], .ok (some true), .ok ⟨⟨none, some "RSA"⟩⟩⟩ =
      .usageExit 1 ∧
    MainResult.exitCode (mainRun "" "k1" ⟨false, true⟩ ⟨false, true⟩
        ⟨false, true⟩ false "RS256" (.ok ()) (.ok ()) [0]
        ⟨.ok [1], .ok (some true), .ok ⟨⟨none, some "RSA"⟩⟩⟩) ≠ 0) :=
  ⟨Or.inl rfl,
    C8_missing_required_flag_usage_exit "" "k1" ⟨false, true⟩ ⟨false, true⟩
      ⟨false, true⟩ false "RS256" (.ok ()) (.ok ()) [0]
      ⟨.ok [1], .ok (some true), .ok ⟨⟨none, some "RSA"⟩⟩⟩ (Or.inl rfl)⟩
